import Mathlib

/-!
Verification of the nexus-ai conversational pipeline contract.

The repository ships the React client of the pipeline
(src/frontend/src/services/chatService.ts, src/frontend/src/hooks/useChatWebSocket.ts,
and the Chat page in src/unnamed/part_000 and src/unnamed/part_001).
Those files are embedded here definition by definition.  The backend
(Session Store, Agent Orchestrator, Response Synthesizer, Streaming
Transport server side) is not part of the sources; where a property is
decided by that missing code, the relevant operation is modelled from the
spec and marked `Modelled from the spec:` in its doc comment.
-/

namespace NexusAI

/-- Chart type union from chatService.ts: `chart_type: 'line' | 'bar' | 'pie'`. -/
inductive ChartType
  | line
  | bar
  | pie
deriving DecidableEq, Repr

/-- One tabular row of Analysis output: named numeric fields. -/
abbrev Row := List (String × ℚ)

/-- Chart shape from chatService.ts (`ChatResponse.charts` element):
`{title, chart_type, data, x_axis, y_axis}`. -/
structure Chart where
  title : String
  chart_type : ChartType
  data : List Row
  x_axis : String
  y_axis : String
deriving DecidableEq, Repr

/-- Source shape from chatService.ts (`ChatResponse.sources` element). -/
structure Source where
  type : String
  name : Option String
  page : Option Nat
  query : Option String
  relevance : Option ℚ
deriving DecidableEq, Repr

/-- Agent step shape from chatService.ts (`ChatResponse.agent_steps` element). -/
structure AgentStep where
  agent : String
  status : String
  action : Option String
  result : Option String
  duration_ms : Option Nat
deriving DecidableEq, Repr

/-- The final payload of a turn, from chatService.ts `ChatResponse`
(the spec calls it `FinalPayload`). -/
structure ChatResponse where
  message : String
  conversation_id : String
  sources : Option (List Source)
  confidence : ℚ
  agent_steps : List AgentStep
  charts : Option (List Chart)
  actions_taken : Option (List String)
deriving DecidableEq, Repr

/-- Message role from the Chat page `Message` interface. -/
inductive Role
  | user
  | assistant
deriving DecidableEq, Repr

/-- A history entry, from the Chat page `Message` interface
(src/unnamed/part_000).  The clock-derived `id` and `timestamp` fields are
omitted: no claim depends on them. -/
structure ChatMessage where
  role : Role
  content : String
  sources : Option (List Source)
  confidence : Option ℚ
  agentSteps : Option (List AgentStep)
  charts : Option (List Chart)
  actionsTaken : Option (List String)
deriving DecidableEq, Repr

/-- JS `String.prototype.trim` on the character list: strip leading and
trailing whitespace. -/
def jsTrimList (cs : List Char) : List Char :=
  ((cs.dropWhile Char.isWhitespace).reverse.dropWhile Char.isWhitespace).reverse

/-- JS `input.trim()` as used by `Chat.handleSend`. -/
def jsTrim (s : String) : String :=
  String.mk (jsTrimList s.data)

/-- The Chat page component state: `messages`, `input`, `loading`,
`conversationId` (src/unnamed/part_000 lines 761-764). -/
structure ChatState where
  messages : List ChatMessage
  input : String
  loading : Bool
  conversationId : Option String
deriving DecidableEq, Repr

/-- Outcome of the awaited `chatService.sendMessage` call inside
`handleSend`: either the server payload or a thrown error. -/
inductive SendResult
  | success (data : ChatResponse)
  | failure (err : String)
deriving DecidableEq, Repr

/-- The user message `handleSend` appends before awaiting the server:
`{role: 'user', content: input.trim()}`. -/
def mkUserMessage (input : String) : ChatMessage :=
  { role := Role.user
    content := jsTrim input
    sources := none
    confidence := none
    agentSteps := none
    charts := none
    actionsTaken := none }

/-- The assistant message built from a successful response
(src/unnamed/part_000 lines 805-814). -/
def mkAssistantMessage (data : ChatResponse) : ChatMessage :=
  { role := Role.assistant
    content := data.message
    sources := data.sources
    confidence := some data.confidence
    agentSteps := some data.agent_steps
    charts := data.charts
    actionsTaken := data.actions_taken }

/-- The fixed apology content of the catch branch of `handleSend`. -/
def apologyText : String :=
  "I apologize, but I\x27m having trouble connecting to the server. Please ensure the backend is running and try again."

/-- The assistant message appended by the catch branch of `handleSend`
(src/unnamed/part_000 lines 819-825): fixed apology content, no payload
fields. -/
def mkErrorMessage : ChatMessage :=
  { role := Role.assistant
    content := apologyText
    sources := none
    confidence := none
    agentSteps := none
    charts := none
    actionsTaken := none }

/-- The `handleSend` entry guard `if (!input.trim() || loading) return`:
blocked when the trimmed input is empty (falsy) or a turn is in flight. -/
def sendBlocked (s : ChatState) : Bool :=
  jsTrim s.input == "" || s.loading

/-- The request body `handleSend` posts, when not blocked:
`{message: userMessage.content, conversation_id: conversationId,
include_sources: true}`. -/
structure ChatRequest where
  message : String
  conversation_id : Option String
  include_sources : Bool
deriving DecidableEq, Repr

/-- The request `handleSend` issues for a given pre-state: `none` when the
guard blocks the send and no call is made. -/
def requestOf (s : ChatState) : Option ChatRequest :=
  if sendBlocked s then none
  else some
    { message := jsTrim s.input
      conversation_id := s.conversationId
      include_sources := true }

/-- `Chat.handleSend` (src/unnamed/part_000 lines 781-829) as a state
transition: guard; append the user message; on success append the
assistant message and store `data.conversation_id`; on error append the
fixed apology and leave `conversationId` unchanged; `input` is cleared and
`loading` ends false either way. -/
def handleSend (s : ChatState) (r : SendResult) : ChatState :=
  if sendBlocked s then s
  else
    match r with
    | SendResult.success data =>
      { messages := s.messages ++ [mkUserMessage s.input, mkAssistantMessage data]
        input := ""
        loading := false
        conversationId := some data.conversation_id }
    | SendResult.failure _ =>
      { messages := s.messages ++ [mkUserMessage s.input, mkErrorMessage]
        input := ""
        loading := false
        conversationId := s.conversationId }

/-- One interactive turn: the user types `t.1` into the input box, then
`handleSend` runs with server outcome `t.2`. -/
def runTurn (s : ChatState) (t : String × SendResult) : ChatState :=
  handleSend { s with input := t.1 } t.2

/-- A sequence of interactive turns. -/
def runTurns (s : ChatState) (ts : List (String × SendResult)) : ChatState :=
  ts.foldl runTurn s

/-- The error taxonomy of spec section 7. -/
inductive ChatError
  | transport
  | agent
  | synthesis
  | validation
  | busy
deriving DecidableEq, Repr

/-- Modelled from the spec: the Conversation Session Store is not under
src/ (only its client is).  Spec 4.1: it holds the ordered history and
"enforces single in-flight exchange per conversation". -/
structure Session where
  history : List ChatMessage
  inFlight : Bool
deriving DecidableEq, Repr

/-- Modelled from the spec: starting an exchange on a session.  Spec 4.1:
"a second `send` on the same conversation while one is in flight fails
fast with `BusyError` rather than interleaving". -/
def sessionBeginSend (s : Session) : Except ChatError Session :=
  if s.inFlight then Except.error ChatError.busy
  else Except.ok { s with inFlight := true }

/-- Clamp a rational to the unit interval. -/
def clamp01 (x : ℚ) : ℚ :=
  max 0 (min 1 x)

/-- Modelled from the spec: the Response Synthesizer chart rule is not
under src/.  Spec 4.4: "charts: zero or more derived from Analysis tabular
output; omitted if no numeric series exists". -/
def synthCharts (analysisRows : List Row) (title xKey yKey : String) : List Chart :=
  if analysisRows.isEmpty then []
  else
    [{ title := title
       chart_type := ChartType.bar
       data := analysisRows
       x_axis := xKey
       y_axis := yKey }]

/-- Modelled from the spec: the Response Synthesizer is not under src/.
Spec 4.4: it merges the completed steps of a turn into one payload with
"confidence: aggregate, clamped to [0,1]" and charts from Analysis
tabular output. -/
def synthesize (draft cid : String) (rawConfidence : ℚ) (sources : List Source)
    (steps : List AgentStep) (analysisRows : List Row) (chartTitle xKey yKey : String)
    (actions : List String) : ChatResponse :=
  { message := draft
    conversation_id := cid
    sources := some sources
    confidence := clamp01 rawConfidence
    agent_steps := steps
    charts := some (synthCharts analysisRows chartTitle xKey yKey)
    actions_taken := some actions }

/-- Outbound event union from useChatWebSocket.ts (`WebSocketMessage`),
discriminated by the `type` field. -/
inductive WsEvent
  | agent_start (agent status : String)
  | agent_status (agent status : String)
  | agent_done (agent result : String)
  | status (message : String)
  | response_chunk (content : String)
  | response (data : ChatResponse)
deriving DecidableEq, Repr

/-- Whether an event is the terminal `response` event. -/
def WsEvent.isResponse : WsEvent → Bool
  | WsEvent.response _ => true
  | _ => false

/-- Spec 4.2 routing flags: which agents this turn runs. -/
structure RoutingFlags where
  needsResearch : Bool
  needsAnalysis : Bool
  needsAction : Bool
deriving DecidableEq, Repr

/-- Outcome of one agent run: whether its tool call succeeded, and its
result summary. -/
structure AgentOutcome where
  ok : Bool
  summary : String
deriving DecidableEq, Repr

/-- Modelled from the spec: the events one agent run contributes, in
order; spec 4.2 has each agent emit `agent_start` then `agent_done`, a
failed tool call being surfaced as an error status instead. -/
def agentTrace (name : String) (o : AgentOutcome) : List WsEvent :=
  if o.ok then [WsEvent.agent_start name "thinking", WsEvent.agent_done name o.summary]
  else [WsEvent.agent_start name "thinking", WsEvent.agent_status name "error"]

/-- Modelled from the spec: the status events of one turn, in the order
the orchestrator runs its agents (Research and Analysis as routed, then
Reasoning, then Action as routed). -/
def turnTracePre (flags : RoutingFlags)
    (research analysis reasoning action : AgentOutcome) : List WsEvent :=
  (if flags.needsResearch then agentTrace "research" research else [])
    ++ (if flags.needsAnalysis then agentTrace "analyst" analysis else [])
    ++ agentTrace "reasoning" reasoning
    ++ (if flags.needsAction then agentTrace "action" action else [])

/-- Modelled from the spec: the Streaming Transport server side is not
under src/.  Spec 4.5: the per-turn stream is the agent status events in
completion order followed by exactly one terminal `response` event. -/
def turnTrace (flags : RoutingFlags) (research analysis reasoning action : AgentOutcome)
    (payload : ChatResponse) : List WsEvent :=
  turnTracePre flags research analysis reasoning action ++ [WsEvent.response payload]

/-- Client-side state touched by the `ws.onmessage` handler of
useChatWebSocket.ts: the banner text, the streamed chunks handed to
`onStreamRef`, and the payloads handed to `onMessageRef`. -/
structure ClientState where
  agentStatus : Option String
  streamedChunks : List String
  receivedResponses : List ChatResponse
deriving DecidableEq, Repr

/-- The `ws.onmessage` dispatch of useChatWebSocket.ts (lines 75-101),
case by case on the `type` field. -/
def handleWsMessage (st : ClientState) (e : WsEvent) : ClientState :=
  match e with
  | WsEvent.agent_status a s => { st with agentStatus := some (a ++ " is " ++ s ++ "...") }
  | WsEvent.agent_start a s => { st with agentStatus := some (a ++ " is " ++ s ++ "...") }
  | WsEvent.agent_done a _ => { st with agentStatus := some ("Finished: " ++ a) }
  | WsEvent.status m => { st with agentStatus := some m }
  | WsEvent.response_chunk c => { st with streamedChunks := st.streamedChunks ++ [c] }
  | WsEvent.response d =>
      { st with agentStatus := none, receivedResponses := st.receivedResponses ++ [d] }

/-- JS `String.prototype.replace` with a string pattern rewrites only the
first occurrence; helper on character lists. -/
def replaceFirstAux (pat rep : List Char) : List Char → List Char
  | [] => if pat.isPrefixOf ([] : List Char) then rep else []
  | c :: rest =>
    if pat.isPrefixOf (c :: rest) then rep ++ (c :: rest).drop pat.length
    else c :: replaceFirstAux pat rep rest

/-- JS `s.replace(pat, rep)` for string patterns (first occurrence only). -/
def jsReplaceFirst (s pat rep : String) : String :=
  String.mk (replaceFirstAux pat.data rep.data s.data)

/-- The channel URL built by useChatWebSocket.ts line 63:
`apiUrl.replace('http', 'ws') + '/api/v1/chat/ws/' + conversationId`. -/
def wsUrlOf (apiUrl conversationId : String) : String :=
  jsReplaceFirst apiUrl "http" "ws" ++ "/api/v1/chat/ws/" ++ conversationId

/-- The API root under which api.ts mounts every REST route
(`baseURL` defaults to `http://localhost:8000/api/v1`). -/
def apiRoot : String := "/api/v1"

/-- The channel path pattern as the spec words it: `/chat/ws/{conversationId}`. -/
def specChannelPath (conversationId : String) : String :=
  "/chat/ws/" ++ conversationId

/-- Minimal JSON values, for the wire shapes. -/
inductive Json
  | str (s : String)
  | num (q : ℚ)
  | bool (b : Bool)
  | null
  | arr (elems : List Json)
  | obj (fields : List (String × Json))

/-- The frame `sendMessage` writes to the socket
(useChatWebSocket.ts line 122): `JSON.stringify({ message })`. -/
def sendMessageFrame (message : String) : Json :=
  Json.obj [("message", Json.str message)]

/-- Modelled from the spec: the aggregate confidence combination lives in
the backend Reasoning agent / Synthesizer, not under src/.  Spec 4.2 and
9 ask for a concrete monotone combination (a weighted average penalized
by the error count): non-decreasing in corroborating sources,
non-increasing in upstream agent errors, always inside (0, 1]. -/
def aggregateConfidence (sources errors : ℕ) : ℚ :=
  (1 + sources) / (2 + sources + 2 * errors)

/-- Modelled from the spec: the observable outcome of one pipeline run as
far as confidence is concerned: whether Research and Analysis succeeded,
and how many document sources Research contributed. -/
structure RunOutcome where
  researchOk : Bool
  analysisOk : Bool
  researchSources : ℕ
deriving DecidableEq, Repr

/-- Upstream agent errors of a run: one per failed agent. -/
def RunOutcome.errors (r : RunOutcome) : ℕ :=
  (if r.researchOk then 0 else 1) + (if r.analysisOk then 0 else 1)

/-- Corroborating sources of a run: Research passages plus the one
database source a successful Analysis contributes. -/
def RunOutcome.sourceCount (r : RunOutcome) : ℕ :=
  (if r.researchOk then r.researchSources else 0) + (if r.analysisOk then 1 else 0)

/-- Modelled from the spec: the aggregate confidence of one run. -/
def runConfidence (r : RunOutcome) : ℚ :=
  aggregateConfidence r.sourceCount r.errors

/-- JS truthiness of a number (NaN aside): truthy iff nonzero. -/
def jsNumberTruthy (q : ℚ) : Bool :=
  q != 0

/-- The confidence badge guard of the Chat page
(src/unnamed/part_000 line 1010): `message.confidence && (...)` renders
the badge only when the field is present and truthy. -/
def showConfidenceBadge (confidence : Option ℚ) : Bool :=
  match confidence with
  | none => false
  | some q => jsNumberTruthy q

/-- The badge percentage: `Math.round(message.confidence * 100)`. -/
def confidenceBadgePercent (q : ℚ) : ℤ :=
  round (q * 100)

/-- The chart shape exactly as the spec data model words it (for the
shape-refinement comparison only):
`{chart_type, title, rows, x_axis_key, y_axis_key}`. -/
structure SpecChart where
  chart_type : ChartType
  title : String
  rows : List Row
  x_axis_key : String
  y_axis_key : String
deriving DecidableEq, Repr

/-- The field correspondence from the code chart to the spec chart:
`data` is `rows`, `x_axis` is `x_axis_key`, `y_axis` is `y_axis_key`. -/
def Chart.toSpec (c : Chart) : SpecChart :=
  { chart_type := c.chart_type
    title := c.title
    rows := c.data
    x_axis_key := c.x_axis
    y_axis_key := c.y_axis }

/-- The inverse field correspondence. -/
def SpecChart.toChart (c : SpecChart) : Chart :=
  { title := c.title
    chart_type := c.chart_type
    data := c.rows
    x_axis := c.x_axis_key
    y_axis := c.y_axis_key }

/-- A concrete pre-state: input typed, no turn in flight. -/
def chatStateEx : ChatState :=
  { messages := []
    input := "What are the top 5 most expensive products?"
    loading := false
    conversationId := some "conv-1" }

/-- A concrete pre-state whose input is whitespace only. -/
def wsInputStateEx : ChatState :=
  { messages := []
    input := "   "
    loading := false
    conversationId := none }

/-- A concrete pre-state with a turn still in flight. -/
def busyStateEx : ChatState :=
  { messages := []
    input := "second question"
    loading := true
    conversationId := some "conv-1" }

/-- A concrete successful server payload. -/
def chatResponseEx : ChatResponse :=
  { message := "The five most expensive products are listed below."
    conversation_id := "conv-1"
    sources := some []
    confidence := 9 / 10
    agent_steps := []
    charts := none
    actions_taken := none }

/-- A concrete session with an exchange in flight. -/
def sessionBusyEx : Session :=
  { history := []
    inFlight := true }

/-- A concrete routing decision running every agent. -/
def routingEx : RoutingFlags :=
  { needsResearch := true
    needsAnalysis := true
    needsAction := false }

/-- A concrete successful agent outcome. -/
def outcomeOkEx : AgentOutcome :=
  { ok := true
    summary := "found 3 passages" }

/-- A concrete failed agent outcome. -/
def outcomeErrEx : AgentOutcome :=
  { ok := false
    summary := "" }

/-- A concrete chart produced by the backend. -/
def chartEx : Chart :=
  { title := "Top products"
    chart_type := ChartType.bar
    data := [[("price", (5 : ℚ))]]
    x_axis := "name"
    y_axis := "price" }

/-- A concrete spec-shaped chart. -/
def specChartEx : SpecChart :=
  { chart_type := ChartType.line
    title := "Weekly sales"
    rows := [[("total", (7 : ℚ))]]
    x_axis_key := "week"
    y_axis_key := "total" }

/-- A concrete run where Research succeeded and Analysis failed. -/
def runOneOkEx : RunOutcome :=
  { researchOk := true
    analysisOk := false
    researchSources := 2 }

/-- A concrete run where Research and Analysis both failed. -/
def runBothFailEx : RunOutcome :=
  { researchOk := false
    analysisOk := false
    researchSources := 0 }

/-- A concrete client state mid-turn. -/
def clientStateEx : ClientState :=
  { agentStatus := some "Processing..."
    streamedChunks := []
    receivedResponses := [] }

/-! ## Helper lemmas -/

/-- Trimming a whitespace-only string yields the empty string. -/
theorem jsTrim_of_whitespace (s : String) (h : ∀ c ∈ s.data, c.isWhitespace) :
    jsTrim s = "" := by
  have h1 : s.data.dropWhile Char.isWhitespace = [] :=
    List.dropWhile_eq_nil_iff.mpr h
  show String.mk (jsTrimList s.data) = ""
  rw [jsTrimList, h1]
  rfl

/-- The send guard does not block a non-empty trimmed input while idle. -/
theorem sendBlocked_eq_false (s : ChatState) (hin : jsTrim s.input ≠ "")
    (hload : s.loading = false) : sendBlocked s = false := by
  simp [sendBlocked, hload, hin]

/-- Unfolding `handleSend` on a successful unblocked send. -/
theorem handleSend_success_eq (s : ChatState) (data : ChatResponse)
    (h : sendBlocked s = false) :
    handleSend s (SendResult.success data) =
      { messages := s.messages ++ [mkUserMessage s.input, mkAssistantMessage data]
        input := ""
        loading := false
        conversationId := some data.conversation_id } := by
  simp [handleSend, h]

/-- Unfolding `handleSend` on a failed unblocked send. -/
theorem handleSend_failure_eq (s : ChatState) (err : String)
    (h : sendBlocked s = false) :
    handleSend s (SendResult.failure err) =
      { messages := s.messages ++ [mkUserMessage s.input, mkErrorMessage]
        input := ""
        loading := false
        conversationId := s.conversationId } := by
  simp [handleSend, h]

/-- A single turn never changes a stored conversation id the server echoes. -/
theorem runTurn_conversationId (s : ChatState) (t : String × SendResult) (c : String)
    (hs : s.conversationId = some c)
    (h : ∀ d, t.2 = SendResult.success d → d.conversation_id = c) :
    (runTurn s t).conversationId = some c := by
  unfold runTurn handleSend
  split
  · exact hs
  · rcases ht : t.2 with data | err
    · simp [h data ht]
    · simpa using hs

/-- Iterated turns never change a stored conversation id the server echoes. -/
theorem runTurns_conversationId (ts : List (String × SendResult)) (s : ChatState)
    (c : String) (hs : s.conversationId = some c)
    (h : ∀ t ∈ ts, ∀ d, t.2 = SendResult.success d → d.conversation_id = c) :
    (runTurns s ts).conversationId = some c := by
  induction ts generalizing s with
  | nil => simpa [runTurns] using hs
  | cons t rest ih =>
    have h1 : (runTurn s t).conversationId = some c :=
      runTurn_conversationId s t c hs (fun d hd => h t (by simp) d hd)
    have h2 := ih (runTurn s t) h1 (fun t2 ht2 d hd => h t2 (by simp [ht2]) d hd)
    simpa [runTurns, List.foldl] using h2

/-- One `handleSend` only ever appends to the history. -/
theorem handleSend_messages_extend (s : ChatState) (r : SendResult) :
    ∃ t, (handleSend s r).messages = s.messages ++ t := by
  unfold handleSend
  rcases r with data | err
  · by_cases hb : sendBlocked s
    · exact ⟨[], by simp [hb]⟩
    · simp only [Bool.not_eq_true] at hb
      exact ⟨[mkUserMessage s.input, mkAssistantMessage data], by simp [hb]⟩
  · by_cases hb : sendBlocked s
    · exact ⟨[], by simp [hb]⟩
    · simp only [Bool.not_eq_true] at hb
      exact ⟨[mkUserMessage s.input, mkErrorMessage], by simp [hb]⟩

/-- Iterated turns only ever append to the history. -/
theorem runTurns_messages_extend (ts : List (String × SendResult)) (s : ChatState) :
    ∃ t, (runTurns s ts).messages = s.messages ++ t := by
  induction ts generalizing s with
  | nil => exact ⟨[], by simp [runTurns]⟩
  | cons t rest ih =>
    obtain ⟨t1, h1⟩ := handleSend_messages_extend { s with input := t.1 } t.2
    obtain ⟨t2, h2⟩ := ih (runTurn s t)
    refine ⟨t1 ++ t2, ?_⟩
    have h3 : runTurns s (t :: rest) = runTurns (runTurn s t) rest := by
      simp [runTurns, List.foldl]
    rw [h3, h2, runTurn, h1]
    simp

/-! ## Claims -/

/-- C3: a successful turn appends exactly the user message then the
assistant message (history grows by two, never mutated in place), stores
the conversation id the response carries, issues its request with the
previously stored id, and across any later turns whose responses echo
that id, the stored id never changes and the history only grows. -/
theorem C3_success_turn_appends_exactly_two (s : ChatState) (data : ChatResponse)
    (hin : jsTrim s.input ≠ "") (hload : s.loading = false) :
    (handleSend s (SendResult.success data)).messages
        = s.messages ++ [mkUserMessage s.input, mkAssistantMessage data]
    ∧ (handleSend s (SendResult.success data)).messages.length = s.messages.length + 2
    ∧ (handleSend s (SendResult.success data)).messages.take s.messages.length = s.messages
    ∧ (handleSend s (SendResult.success data)).conversationId = some data.conversation_id
    ∧ requestOf s = some
        { message := jsTrim s.input
          conversation_id := s.conversationId
          include_sources := true }
    ∧ (∀ ts, (∀ t ∈ ts, ∀ d, t.2 = SendResult.success d
          → d.conversation_id = data.conversation_id)
        → (runTurns (handleSend s (SendResult.success data)) ts).conversationId
            = some data.conversation_id
          ∧ ∃ rest, (runTurns (handleSend s (SendResult.success data)) ts).messages
              = s.messages ++ [mkUserMessage s.input, mkAssistantMessage data] ++ rest) := by
  have hb := sendBlocked_eq_false s hin hload
  have he := handleSend_success_eq s data hb
  refine ⟨by rw [he], by rw [he]; simp, by rw [he]; simp [List.take_left],
    by rw [he], by simp [requestOf, hb], ?_⟩
  intro ts hts
  constructor
  · exact runTurns_conversationId ts _ _ (by rw [he]) hts
  · obtain ⟨t2, h2⟩ := runTurns_messages_extend ts (handleSend s (SendResult.success data))
    exact ⟨t2, by rw [h2, he]⟩

/-- Witness for C3 at a concrete state and payload. -/
theorem C3_success_turn_appends_exactly_two_witness :
    jsTrim chatStateEx.input ≠ "" ∧ chatStateEx.loading = false
    ∧ (handleSend chatStateEx (SendResult.success chatResponseEx)).messages.length
        = chatStateEx.messages.length + 2 :=
  ⟨by decide, rfl,
    (C3_success_turn_appends_exactly_two chatStateEx chatResponseEx (by decide) rfl).2.1⟩

/-- C4: while an exchange is in flight, the session store (modelled from
the spec) rejects a second send with BusyError, and the Chat page guard
drops the send without issuing a request or changing state, so no second
pipeline ever starts for the conversation. -/
theorem C4_second_send_rejected_busy (sess : Session) (s : ChatState) (r : SendResult)
    (hsess : sess.inFlight = true) (hload : s.loading = true) :
    sessionBeginSend sess = Except.error ChatError.busy
    ∧ handleSend s r = s
    ∧ requestOf s = none := by
  have hb : sendBlocked s = true := by simp [sendBlocked, hload]
  exact ⟨by simp [sessionBeginSend, hsess], by simp [handleSend, hb], by simp [requestOf, hb]⟩

/-- Witness for C4 at a concrete busy session and loading state. -/
theorem C4_second_send_rejected_busy_witness :
    sessionBusyEx.inFlight = true ∧ busyStateEx.loading = true
    ∧ sessionBeginSend sessionBusyEx = Except.error ChatError.busy
    ∧ handleSend busyStateEx (SendResult.success chatResponseEx) = busyStateEx :=
  ⟨rfl, rfl,
    (C4_second_send_rejected_busy sessionBusyEx busyStateEx
      (SendResult.success chatResponseEx) rfl rfl).1,
    (C4_second_send_rejected_busy sessionBusyEx busyStateEx
      (SendResult.success chatResponseEx) rfl rfl).2.1⟩

/-- C5: an empty or whitespace-only inbound message is rejected by the
`handleSend` guard: the trimmed text is empty, the state is unchanged,
and no request enters the pipeline, so no turn starts. -/
theorem C5_whitespace_message_rejected (s : ChatState) (r : SendResult)
    (h : ∀ c ∈ s.input.data, c.isWhitespace) :
    jsTrim s.input = "" ∧ handleSend s r = s ∧ requestOf s = none := by
  have ht := jsTrim_of_whitespace s.input h
  have hb : sendBlocked s = true := by simp [sendBlocked, ht]
  exact ⟨ht, by simp [handleSend, hb], by simp [requestOf, hb]⟩

/-- Witness for C5 at the concrete whitespace input. -/
theorem C5_whitespace_message_rejected_witness :
    (∀ c ∈ wsInputStateEx.input.data, c.isWhitespace)
    ∧ handleSend wsInputStateEx (SendResult.failure "boom") = wsInputStateEx :=
  ⟨by decide,
    (C5_whitespace_message_rejected wsInputStateEx (SendResult.failure "boom")
      (by decide)).2.1⟩

/-- C6: a failed turn appends the fixed plain-language apology as an
assistant message carrying no payload fields, preserves the prior
messages as an untouched prefix and the stored conversation id, and is
independent of the raw error, which is therefore never surfaced. -/
theorem C6_failure_surfaces_apology_only (s : ChatState) (err : String)
    (hin : jsTrim s.input ≠ "") (hload : s.loading = false) :
    (handleSend s (SendResult.failure err)).messages
        = s.messages ++ [mkUserMessage s.input, mkErrorMessage]
    ∧ mkErrorMessage.role = Role.assistant
    ∧ mkErrorMessage.content = apologyText
    ∧ mkErrorMessage.sources = none
    ∧ mkErrorMessage.confidence = none
    ∧ mkErrorMessage.agentSteps = none
    ∧ mkErrorMessage.charts = none
    ∧ mkErrorMessage.actionsTaken = none
    ∧ (handleSend s (SendResult.failure err)).conversationId = s.conversationId
    ∧ (handleSend s (SendResult.failure err)).messages.take s.messages.length = s.messages
    ∧ ∀ err2, handleSend s (SendResult.failure err) = handleSend s (SendResult.failure err2) := by
  have hb := sendBlocked_eq_false s hin hload
  have he := handleSend_failure_eq s err hb
  refine ⟨by rw [he], rfl, rfl, rfl, rfl, rfl, rfl, rfl, by rw [he],
    by rw [he]; simp [List.take_left], ?_⟩
  intro err2
  rw [he, handleSend_failure_eq s err2 hb]

/-- Witness for C6 at a concrete state and error. -/
theorem C6_failure_surfaces_apology_only_witness :
    jsTrim chatStateEx.input ≠ ""
    ∧ (handleSend chatStateEx (SendResult.failure "ECONNREFUSED")).messages
        = chatStateEx.messages ++ [mkUserMessage chatStateEx.input, mkErrorMessage] :=
  ⟨by decide,
    (C6_failure_surfaces_apology_only chatStateEx "ECONNREFUSED" (by decide) rfl).1⟩

/-- C1: the synthesized final payload always carries a confidence inside
the closed unit interval, whatever raw aggregate the pipeline computed. -/
theorem C1_payload_confidence_in_unit_interval (draft cid : String) (raw : ℚ)
    (sources : List Source) (steps : List AgentStep) (rows : List Row)
    (ct xk yk : String) (actions : List String) :
    0 ≤ (synthesize draft cid raw sources steps rows ct xk yk actions).confidence
    ∧ (synthesize draft cid raw sources steps rows ct xk yk actions).confidence ≤ 1 := by
  unfold synthesize clamp01
  exact ⟨le_max_left 0 _, max_le (by norm_num) (min_le_left 1 raw)⟩

/-- No event contributed by one agent run is a `response` event. -/
theorem agentTrace_no_response (n : String) (o : AgentOutcome) :
    ∀ e ∈ agentTrace n o, e.isResponse = false := by
  intro e he
  unfold agentTrace at he
  by_cases h : o.ok = true
  · rw [if_pos h] at he
    simp only [List.mem_cons, List.not_mem_nil, or_false] at he
    rcases he with rfl | rfl <;> rfl
  · rw [if_neg h] at he
    simp only [List.mem_cons, List.not_mem_nil, or_false] at he
    rcases he with rfl | rfl <;> rfl

/-- Membership in a routed (possibly skipped) event block. -/
theorem mem_ite_trace {e : WsEvent} {b : Bool} {l : List WsEvent}
    (h : e ∈ if b then l else []) : e ∈ l := by
  by_cases hb : b = true
  · rwa [if_pos hb] at h
  · rw [if_neg hb] at h
    exact absurd h (List.not_mem_nil e)

/-- Every status event of a turn is a non-`response` event. -/
theorem turnTracePre_no_response (flags : RoutingFlags)
    (research analysis reasoning action : AgentOutcome) :
    ∀ e ∈ turnTracePre flags research analysis reasoning action, e.isResponse = false := by
  intro e he
  unfold turnTracePre at he
  simp only [List.mem_append] at he
  rcases he with ((h1 | h1) | h1) | h1
  · exact agentTrace_no_response _ _ e (mem_ite_trace h1)
  · exact agentTrace_no_response _ _ e (mem_ite_trace h1)
  · exact agentTrace_no_response _ _ e h1
  · exact agentTrace_no_response _ _ e (mem_ite_trace h1)

/-- Non-`response` events leave the delivered-payload list untouched. -/
theorem handleWsMessage_received_of_not_response (st : ClientState) (e : WsEvent)
    (h : e.isResponse = false) :
    (handleWsMessage st e).receivedResponses = st.receivedResponses := by
  cases e with
  | response d => simp [WsEvent.isResponse] at h
  | agent_start a s => rfl
  | agent_status a s => rfl
  | agent_done a r => rfl
  | status m => rfl
  | response_chunk c => rfl

/-- Processing only non-`response` events delivers no payload. -/
theorem foldl_handleWsMessage_received (pre : List WsEvent) (st : ClientState)
    (h : ∀ e ∈ pre, e.isResponse = false) :
    (pre.foldl handleWsMessage st).receivedResponses = st.receivedResponses := by
  induction pre generalizing st with
  | nil => rfl
  | cons e rest ih =>
    rw [List.foldl_cons, ih _ (fun x hx => h x (by simp [hx])),
      handleWsMessage_received_of_not_response st e (h e (by simp))]

/-- C2: the turn stream decomposes as status events followed by the
single terminal `response`: every `agent_*` event strictly precedes it,
no event of any type follows it, and a client folding the stream through
the `ws.onmessage` dispatch ends with the banner cleared and exactly one
payload delivered for the turn. -/
theorem C2_agent_events_strictly_precede_response (flags : RoutingFlags)
    (research analysis reasoning action : AgentOutcome) (payload : ChatResponse) :
    ∃ pre, turnTrace flags research analysis reasoning action payload
        = pre ++ [WsEvent.response payload]
      ∧ (∀ e ∈ pre, e.isResponse = false)
      ∧ (turnTrace flags research analysis reasoning action payload).filter
          WsEvent.isResponse = [WsEvent.response payload]
      ∧ ∀ st : ClientState,
          ((turnTrace flags research analysis reasoning action payload).foldl
              handleWsMessage st).agentStatus = none
          ∧ ((turnTrace flags research analysis reasoning action payload).foldl
              handleWsMessage st).receivedResponses = st.receivedResponses ++ [payload] := by
  refine ⟨turnTracePre flags research analysis reasoning action, rfl,
    turnTracePre_no_response flags research analysis reasoning action, ?_, ?_⟩
  · rw [turnTrace, List.filter_append]
    rw [List.filter_eq_nil_iff.mpr
      (fun a ha => by simp [turnTracePre_no_response flags research analysis reasoning action a ha])]
    rfl
  · intro st
    rw [turnTrace, List.foldl_append]
    constructor
    · rfl
    · show (handleWsMessage _ (WsEvent.response payload)).receivedResponses = _
      rw [handleWsMessage,
        foldl_handleWsMessage_received _ st
          (turnTracePre_no_response flags research analysis reasoning action)]

/-- C7: every chart value has exactly the spec shape: a chart type drawn
from line, bar, pie; a title; rows (the code field `data`); an x-axis key
(`x_axis`); a y-axis key (`y_axis`) — the correspondence is a bijection —
and the synthesizer includes a chart only when Analysis produced tabular
rows. -/
theorem C7_chart_shape_and_presence (c : Chart) (sc : SpecChart) (rows : List Row)
    (t x y : String) :
    (Chart.toSpec c).toChart = c
    ∧ (SpecChart.toChart sc).toSpec = sc
    ∧ (c.chart_type = ChartType.line ∨ c.chart_type = ChartType.bar
        ∨ c.chart_type = ChartType.pie)
    ∧ (Chart.toSpec c).chart_type = c.chart_type
    ∧ (Chart.toSpec c).title = c.title
    ∧ (Chart.toSpec c).rows = c.data
    ∧ (Chart.toSpec c).x_axis_key = c.x_axis
    ∧ (Chart.toSpec c).y_axis_key = c.y_axis
    ∧ (∀ ch ∈ synthCharts rows t x y, rows ≠ [] ∧ ch.data = rows)
    ∧ (rows = [] → synthCharts rows t x y = []) := by
  refine ⟨rfl, rfl, ?_, rfl, rfl, rfl, rfl, rfl, ?_, ?_⟩
  · cases h : c.chart_type <;> simp
  · intro ch hch
    unfold synthCharts at hch
    by_cases hr : rows.isEmpty = true
    · rw [if_pos hr] at hch
      exact absurd hch (List.not_mem_nil ch)
    · rw [if_neg hr] at hch
      simp only [List.mem_cons, List.not_mem_nil, or_false] at hch
      subst hch
      refine ⟨?_, rfl⟩
      intro hnil
      exact hr (by simp [hnil])
  · intro hnil
    subst hnil
    rfl

/-- C8: the client connects at the spec channel path under the same
`/api/v1` root every REST route uses, writes exactly the inbound frame
with the single `message` field, and dispatches outbound events on their
`type`: `response` clears the banner and delivers the payload,
`agent_start`/`agent_status`/`agent_done`/`status` update the banner, and
`response_chunk` appends streamed text. -/
theorem C8_channel_path_and_wire_shapes (apiUrl cid m : String) (st : ClientState)
    (d : ChatResponse) :
    wsUrlOf apiUrl cid = jsReplaceFirst apiUrl "http" "ws" ++ (apiRoot ++ specChannelPath cid)
    ∧ wsUrlOf "http://localhost:8000" cid
        = "ws://localhost:8000" ++ (apiRoot ++ specChannelPath cid)
    ∧ sendMessageFrame m = Json.obj [("message", Json.str m)]
    ∧ (handleWsMessage st (WsEvent.response d)).agentStatus = none
    ∧ (handleWsMessage st (WsEvent.response d)).receivedResponses
        = st.receivedResponses ++ [d]
    ∧ (∀ a s2, (handleWsMessage st (WsEvent.agent_start a s2)).agentStatus
        = some (a ++ " is " ++ s2 ++ "..."))
    ∧ (∀ a s2, (handleWsMessage st (WsEvent.agent_status a s2)).agentStatus
        = some (a ++ " is " ++ s2 ++ "..."))
    ∧ (∀ a r, (handleWsMessage st (WsEvent.agent_done a r)).agentStatus
        = some ("Finished: " ++ a))
    ∧ (∀ msg, (handleWsMessage st (WsEvent.status msg)).agentStatus = some msg)
    ∧ (∀ chunk, (handleWsMessage st (WsEvent.response_chunk chunk)).streamedChunks
        = st.streamedChunks ++ [chunk]) := by
  have hsplit : ("/api/v1/chat/ws/" : String) = apiRoot ++ "/chat/ws/" := by decide
  refine ⟨?_, ?_, rfl, rfl, rfl, fun a s2 => rfl, fun a s2 => rfl, fun a r => rfl,
    fun msg => rfl, fun chunk => rfl⟩
  · unfold wsUrlOf specChannelPath
    rw [hsplit, String.append_assoc, String.append_assoc]
  · unfold wsUrlOf specChannelPath
    have hrep : jsReplaceFirst "http://localhost:8000" "http" "ws"
        = "ws://localhost:8000" := by decide
    rw [hrep, hsplit, String.append_assoc, String.append_assoc]

/-- C9: the aggregate confidence is non-decreasing in the number of
corroborating sources, non-increasing in the number of upstream agent
errors, and a run where Research and Analysis both fail scores strictly
below every run where at least one of them succeeds. -/
theorem C9_confidence_monotone_and_both_fail_lowest (s1 s2 e1 e2 : ℕ)
    (rBoth rOne : RunOutcome) (hs : s1 ≤ s2) (he : e1 ≤ e2)
    (hrf : rBoth.researchOk = false) (haf : rBoth.analysisOk = false)
    (hone : rOne.researchOk = true ∨ rOne.analysisOk = true) :
    aggregateConfidence s1 e1 ≤ aggregateConfidence s2 e1
    ∧ aggregateConfidence s1 e2 ≤ aggregateConfidence s1 e1
    ∧ runConfidence rBoth < runConfidence rOne := by
  have hden : ∀ (a b : ℕ), (0 : ℚ) < 2 + a + 2 * b := by
    intro a b
    positivity
  refine ⟨?_, ?_, ?_⟩
  · unfold aggregateConfidence
    rw [div_le_div_iff₀ (hden s1 e1) (hden s2 e1)]
    have hc : (s1 : ℚ) ≤ s2 := by exact_mod_cast hs
    have h1 : (0 : ℚ) ≤ e1 := by positivity
    nlinarith [mul_nonneg (sub_nonneg.mpr hc) h1]
  · unfold aggregateConfidence
    rw [div_le_div_iff₀ (hden s1 e2) (hden s1 e1)]
    have hc : (e1 : ℚ) ≤ e2 := by exact_mod_cast he
    have h1 : (0 : ℚ) ≤ s1 := by positivity
    nlinarith [mul_nonneg (sub_nonneg.mpr hc) h1]
  · have hb : runConfidence rBoth = 1 / 6 := by
      unfold runConfidence RunOutcome.sourceCount RunOutcome.errors aggregateConfidence
      rw [hrf, haf]
      norm_num
    have heOne : rOne.errors ≤ 1 := by
      unfold RunOutcome.errors
      rcases hone with h | h
      · rw [h]
        cases rOne.analysisOk <;> simp
      · rw [h]
        cases rOne.researchOk <;> simp
    have hkey : (1 : ℚ) / 6 < aggregateConfidence rOne.sourceCount rOne.errors := by
      unfold aggregateConfidence
      rw [div_lt_div_iff₀ (by norm_num) (hden rOne.sourceCount rOne.errors)]
      have hce : (rOne.errors : ℚ) ≤ 1 := by exact_mod_cast heOne
      have hcn : (0 : ℚ) ≤ rOne.sourceCount := by positivity
      nlinarith
    rw [hb]
    exact hkey

/-- Witness for C9 at concrete runs: Research-only success beats the
double failure, and the monotone bounds hold at 1 ≤ 2 sources, 0 ≤ 1
errors. -/
theorem C9_confidence_monotone_and_both_fail_lowest_witness :
    runBothFailEx.researchOk = false ∧ runBothFailEx.analysisOk = false
    ∧ (runOneOkEx.researchOk = true ∨ runOneOkEx.analysisOk = true)
    ∧ runConfidence runBothFailEx < runConfidence runOneOkEx :=
  ⟨rfl, rfl, Or.inl rfl,
    (C9_confidence_monotone_and_both_fail_lowest 1 2 0 1 runBothFailEx runOneOkEx
      (by norm_num) (by norm_num) rfl rfl (Or.inl rfl)).2.2⟩

/-- C10: the confidence badge is rendered only when the confidence field
is present and non-zero; a message whose confidence is exactly 0 shows no
badge and is indistinguishable from one carrying no confidence at all. -/
theorem C10_zero_confidence_badge_hidden :
    showConfidenceBadge (some 0) = false
    ∧ showConfidenceBadge none = false
    ∧ showConfidenceBadge (some 0) = showConfidenceBadge none
    ∧ (∀ c : Option ℚ, showConfidenceBadge c = true ↔ ∃ q, c = some q ∧ q ≠ 0)
    ∧ (∀ d : ChatResponse, showConfidenceBadge (mkAssistantMessage d).confidence
        = jsNumberTruthy d.confidence) := by
  refine ⟨by decide, rfl, by decide, ?_, fun d => rfl⟩
  intro c
  rcases c with _ | q
  · simp [showConfidenceBadge]
  · simp [showConfidenceBadge, jsNumberTruthy]

end NexusAI
